import Mathlib

/-!
Shallow embedding of the NeuroGraph integration service
(`integration_service/api/pipeline.py` and
`integration_service/services/orchestration_service.py`) together with
theorems checking the specification's claims against it.

Python strings are modelled as Lean `String`, Python `int` as `Int`,
`Optional[str]` as `Option String`; fallible code is modelled with
`Except`; external effects (filesystem reads, remote HTTP calls) are
modelled as oracle parameters enumerating their possible outcomes.
-/

namespace NeuroGraph

/-! ## Python string primitives -/

/-- Whitespace characters removed by Python `str.strip()` (ASCII subset). -/
def isPySpace (c : Char) : Bool :=
  c = ' ' || c = '\t' || c = '\n' || c = '\r' || c = '\x0b' || c = '\x0c'

/-- Python `str.strip()`: drop leading and trailing whitespace. -/
def pyStrip (s : String) : String :=
  ⟨List.reverse (List.dropWhile isPySpace (List.reverse (List.dropWhile isPySpace s.data)))⟩

/-- Python `str.lower()` (ASCII case mapping). -/
def pyLower (s : String) : String :=
  ⟨List.map Char.toLower s.data⟩

/-- Python `str.endswith(suffix)`. -/
def pyEndsWith (s suffix : String) : Bool :=
  List.isSuffixOf suffix.data s.data

/-- Digit run accepted by Python `int()`: nonempty digits, with single
underscores allowed strictly between digits. -/
def pyDigitsCore : Char → List Char → Bool
  | prev, [] => prev.isDigit
  | prev, c :: cs => (c.isDigit || (c = '_' && prev.isDigit)) && pyDigitsCore c cs

def pyDigitsOk : List Char → Bool
  | [] => false
  | c :: cs => c.isDigit && pyDigitsCore c cs

/-- Numeric value of a digit run (underscores are separators and ignored). -/
def digitsVal (cs : List Char) : Nat :=
  cs.foldl (fun acc c => if c.isDigit then acc * 10 + (c.toNat - '0'.toNat) else acc) 0

/-- Python `int(s)` on a string: optional sign followed by a digit run;
`none` models a raised `ValueError`. (`int` strips surrounding whitespace.) -/
def pyInt? (s : String) : Option Int :=
  match (pyStrip s).data with
  | '+' :: rest => if pyDigitsOk rest then some ((digitsVal rest : Nat) : Int) else none
  | '-' :: rest => if pyDigitsOk rest then some (-((digitsVal rest : Nat) : Int)) else none
  | cs => if pyDigitsOk cs then some ((digitsVal cs : Nat) : Int) else none

/-- Python `x or d` for strings: the empty string is falsy. -/
def pyOrS (v d : String) : String :=
  if v = "" then d else v

/-! ## `_parse_int_form` and the mine-patterns coercion (pipeline.py) -/

/-- `_parse_int_form(value, default)`: default if `None`; strip; default if
empty; `int(s)`, falling back to the default on `ValueError`. -/
def parse_int_form : Option String → Int → Int
  | none, d => d
  | some v, d =>
    if pyStrip v = "" then d
    else
      match pyInt? (pyStrip v) with
      | some n => n
      | none => d

/-- Raw form fields of a /mine-patterns request; `none` means the field is
absent from the request. -/
structure MineRequest where
  min_pattern_size : Option String := none
  max_pattern_size : Option String := none
  min_neighborhood_size : Option String := none
  max_neighborhood_size : Option String := none
  n_neighborhoods : Option String := none
  n_trials : Option String := none
  out_batch_size : Option String := none
  graph_type : Option String := none
  search_strategy : Option String := none
  sample_method : Option String := none
  graph_output_format : Option String := none
  deriving Repr, DecidableEq

/-- The mining configuration dict forwarded to the mining backend. -/
structure MiningConfig where
  min_pattern_size : Int
  max_pattern_size : Int
  min_neighborhood_size : Int
  max_neighborhood_size : Int
  n_neighborhoods : Int
  n_trials : Int
  out_batch_size : Int
  graph_type : String
  search_strategy : String
  sample_method : String
  graph_output_format : String
  deriving Repr, DecidableEq

/-- Resolution of one numeric form field: an absent field is bound to the
endpoint's declared form default string, then `_parse_int_form` is applied. -/
def resolve_numeric (v : Option String) (formDefault : String) (d : Int) : Int :=
  parse_int_form (some (v.getD formDefault)) d

/-- Resolution of one categorical form field: an absent field is bound to the
declared form default string, then `(value or default).strip().lower()`. -/
def resolve_categorical (v : Option String) (d : String) : String :=
  pyLower (pyStrip (pyOrS (v.getD d) d))

/-- Resolution of `graph_type`: when absent, empty, or whitespace-only the
value recorded in the job's metadata is used (`meta` models the value
returned by `get_graph_type_from_metadata`); otherwise `strip().lower()`. -/
def resolve_graph_type (g : Option String) (meta : String) : String :=
  match g with
  | none => meta
  | some s => if pyStrip s = "" then meta else pyLower (pyStrip s)

/-- Body of the /mine-patterns endpoint: builds the `mining_config` dict
from the raw form fields (defaults 3, 5, 3, 5, 500, 100, 3, and
greedy / tree / representative). -/
def mine_patterns_config (r : MineRequest) (meta : String) : MiningConfig :=
  { min_pattern_size := resolve_numeric r.min_pattern_size "3" 3
    max_pattern_size := resolve_numeric r.max_pattern_size "5" 5
    min_neighborhood_size := resolve_numeric r.min_neighborhood_size "3" 3
    max_neighborhood_size := resolve_numeric r.max_neighborhood_size "5" 5
    n_neighborhoods := resolve_numeric r.n_neighborhoods "500" 500
    n_trials := resolve_numeric r.n_trials "100" 100
    out_batch_size := resolve_numeric r.out_batch_size "3" 3
    graph_type := resolve_graph_type r.graph_type meta
    search_strategy := resolve_categorical r.search_strategy "greedy"
    sample_method := resolve_categorical r.sample_method "tree"
    graph_output_format := resolve_categorical r.graph_output_format "representative" }

/-! ## The /generate-graph endpoint (pipeline.py) -/

/-- One uploaded multipart file (only the filename matters to the claims). -/
structure UploadFile where
  filename : String
  deriving Repr, DecidableEq

/-- Result dict returned by `orchestration_service.generate_networkx`;
`.get` on the optional keys models Python `dict.get`. -/
structure BuilderResult where
  status : Option String := none
  error : Option String := none
  job_id : String := ""
  networkx_file : String := ""
  deriving Repr, DecidableEq

/-- Observable outcome of the endpoint: a returned payload, a raised
`HTTPException(code, detail)`, or an uncaught exception (which the
framework turns into a generic 500 failure). -/
inductive HttpOutcome where
  | success (r : BuilderResult)
  | httpError (code : Nat) (detail : String)
  | raised (msg : String)
  deriving Repr, DecidableEq

/-- Effect trace of the endpoint on its ephemeral staging directory. -/
structure GenEffects where
  tempDirCreated : Bool
  tempDirRemoved : Bool
  deriving Repr, DecidableEq

/-- The /generate-graph endpoint. `stage` is the outcome of writing the
uploaded files into the fresh `mkdtemp` directory; `backend` is the outcome
of the `generate_networkx` call (an `Except.error` is a raised exception,
e.g. a transport failure). The `except` clause removes the staging
directory and re-raises, so a 502 raised inside the `try` is also preceded
by cleanup. -/
def generate_graph (files : List UploadFile) (stage : Except String Unit)
    (backend : Except String BuilderResult) : HttpOutcome × GenEffects :=
  if files.any (fun f => !(pyEndsWith f.filename ".csv")) then
    (HttpOutcome.httpError 400 "Only CSV files are allowed", ⟨false, false⟩)
  else
    match stage with
    | Except.error e => (HttpOutcome.raised e, ⟨true, true⟩)
    | Except.ok _ =>
      match backend with
      | Except.error e => (HttpOutcome.raised e, ⟨true, true⟩)
      | Except.ok result =>
        if result.status = some "error" then
          (HttpOutcome.httpError 502
            (result.error.getD "Graph generation failed (AtomSpace error)"),
           ⟨true, true⟩)
        else
          (HttpOutcome.success result, ⟨true, false⟩)

/-! ## `_generate_networkx` (orchestration_service.py) -/

/-- Fields the orchestrator reads from the Graph Builder's JSON response. -/
structure LoadResponseBody where
  job_id : String
  output_dir : String
  deriving Repr, DecidableEq

/-- Result of `_generate_networkx` on success. -/
structure NetworkxResult where
  job_id : String
  networkx_file : String
  deriving Repr, DecidableEq

/-- Outcome of the `httpx` POST to the Graph Builder: a raised transport
exception, or a response with a status code, body text, and a JSON parse
outcome (`Except.error` models a raised parse or key error). -/
inductive PostOutcome where
  | raised (msg : String)
  | response (status : Nat) (text : String) (body : Except String LoadResponseBody)

/-- Existence flags for the ephemeral config.json / schema.json files. -/
structure TempFiles where
  configExists : Bool
  schemaExists : Bool
  deriving Repr, DecidableEq

/-- Writing the config and schema payloads to the fixed temp paths. -/
def writeEphemeralFiles : TempFiles :=
  ⟨true, true⟩

/-- The `finally` block: `os.unlink` each file if it exists. -/
def cleanupEphemeralFiles (t : TempFiles) : TempFiles :=
  ⟨if t.configExists then false else t.configExists,
   if t.schemaExists then false else t.schemaExists⟩

/-- The `try` body of `_generate_networkx` after the files are written:
POST, fail on a non-200 status with the response text attached, read the
JSON body, and build the shared-volume NetworkX path. -/
def generate_networkx_try (post : PostOutcome) : Except String NetworkxResult :=
  match post with
  | PostOutcome.raised e => Except.error e
  | PostOutcome.response status text body =>
    if status ≠ 200 then Except.error ("AtomSpace API error: " ++ text)
    else
      match body with
      | Except.error e => Except.error e
      | Except.ok r =>
        Except.ok ⟨r.job_id, "/shared/output/" ++ r.job_id ++ "/networkx_graph.pkl"⟩

/-- `_generate_networkx`: write the ephemeral files, run the body, and run
the `finally` cleanup on every exit path; the second component is the final
state of the two ephemeral files. -/
def generate_networkx (post : PostOutcome) : Except String NetworkxResult × TempFiles :=
  (generate_networkx_try post, cleanupEphemeralFiles writeEphemeralFiles)

/-! ## The /mining-status endpoint (pipeline.py) -/

/-- Status payload returned to the polling client. -/
structure StatusPayload where
  status : String
  progress : Int
  message : String
  deriving Repr, DecidableEq

/-- Outcome of looking up and reading a progress record: the file is
missing, it parses to a payload, or reading/parsing raises. -/
inductive ProgressRead where
  | missing
  | parsed (d : StatusPayload)
  | readError (err : String)
  deriving Repr, DecidableEq

/-- Path of a job's progress record on the shared volume. -/
def progress_path (job_id : String) : String :=
  "/shared/output/" ++ job_id ++ "/progress.json"

/-- The `try` body of the endpoint: pending payload when the record is
missing, the parsed record otherwise; a read error is a raised exception. -/
def get_mining_status_body (fs : String → ProgressRead) (job_id : String) :
    Except String StatusPayload :=
  match fs (progress_path job_id) with
  | ProgressRead.missing => Except.ok ⟨"pending", 0, "Waiting for miner to start..."⟩
  | ProgressRead.parsed d => Except.ok d
  | ProgressRead.readError e => Except.error e

/-- The /mining-status endpoint: the catch-all `except` converts any raised
error into an error payload, so the endpoint is a total function. -/
def get_mining_status (fs : String → ProgressRead) (job_id : String) : StatusPayload :=
  match get_mining_status_body fs job_id with
  | Except.ok d => d
  | Except.error e => ⟨"error", 0, "Error checking status: " ++ e⟩

/-! ## The /download-result endpoint (pipeline.py)

The Job Store helpers `get_result_file_path` and `create_job_archive` are
not part of the sources under verification (only their caller is), so they
are modelled from the spec. Filesystem paths are modelled structurally as
lists of components. -/

/-- Error raised by a Job Store operation: `PermissionError`,
`FileNotFoundError`, or any other exception. -/
inductive StoreError where
  | permission (msg : String)
  | notFound (msg : String)
  | other (msg : String)
  deriving Repr, DecidableEq

/-- Split a filename into slash-separated components. -/
def splitSlashAux : List Char → List (List Char)
  | [] => [[]]
  | c :: cs =>
    let rest := splitSlashAux cs
    if c = '/' then [] :: rest
    else
      match rest with
      | [] => [[c]]
      | r :: rs => (c :: r) :: rs

def splitSlash (s : String) : List String :=
  List.map (fun cs => ⟨cs⟩) (splitSlashAux s.data)

/-- Resolve relative path components against a directory: `..` pops one
component and escapes (`none`) when there is nothing left to pop; `.` and
empty components are no-ops. -/
def resolveComponents : List String → List String → Option (List String)
  | acc, [] => some acc
  | acc, c :: cs =>
    if c = ".." then
      match acc with
      | [] => none
      | _ => resolveComponents acc.dropLast cs
    else if c = "." ∨ c = "" then resolveComponents acc cs
    else resolveComponents (acc ++ [c]) cs

/-- Modelled from the spec: `get_result_file_path` is absent from the
sources; per the spec it must resolve the requested filename strictly
within the job's own directory, raising a permission error on any escape
and a not-found error when the resolved file does not exist. `fs` is the
set of existing files. -/
def get_result_file_path (fs : List String → Bool) (job_id filename : String) :
    Except StoreError (List String) :=
  match resolveComponents [] (splitSlash filename) with
  | none => Except.error (StoreError.permission ("Access to " ++ filename ++ " is not permitted"))
  | some rel =>
    let path := ["shared", "output", job_id] ++ rel
    if fs path then Except.ok path
    else Except.error (StoreError.notFound ("File not found: " ++ filename))

/-- Modelled from the spec: `create_job_archive` is absent from the
sources; per the spec it fails distinguishably when the job directory does
not exist (not-found) versus when archiving itself fails (generic). -/
def create_job_archive (jobDirExists archiveOk : Bool) (job_id : String) :
    Except StoreError (List String) :=
  if !jobDirExists then Except.error (StoreError.notFound ("Job not found: " ++ job_id))
  else if !archiveOk then Except.error (StoreError.other "Archive creation failed")
  else Except.ok ["shared", "output", job_id ++ ".zip"]

/-- Observable outcome of /download-result. -/
inductive DownloadOutcome where
  | fileResponse (path : List String)
  | httpError (code : Nat) (detail : String)
  deriving Repr, DecidableEq

/-- The exception handlers of /download-result: `PermissionError` maps to
403, `FileNotFoundError` to 404, any other exception to 500. -/
def storeOutcomeToHttp : Except StoreError (List String) → DownloadOutcome
  | Except.ok p => DownloadOutcome.fileResponse p
  | Except.error (StoreError.permission m) => DownloadOutcome.httpError 403 m
  | Except.error (StoreError.notFound m) => DownloadOutcome.httpError 404 m
  | Except.error (StoreError.other m) => DownloadOutcome.httpError 500 m

/-- The /download-result endpoint: single-file retrieval when a filename is
given, whole-job archive otherwise, with the exception handlers applied. -/
def download_result (fs : List String → Bool) (jobDirExists archiveOk : Bool)
    (job_id : String) (filename : Option String) : DownloadOutcome :=
  storeOutcomeToHttp
    (match filename with
      | some f => get_result_file_path fs job_id f
      | none => create_job_archive jobDirExists archiveOk job_id)

/-! ## Ephemeral storage paths used by a graph-generation request

`generate-graph` stages uploads in a fresh `mkdtemp()` directory, but
`_generate_networkx` writes its config and schema payloads to fixed names
directly under `tempfile.gettempdir()`. -/

/-- `tempfile.gettempdir()`, as path components. -/
def gettempdir : List String :=
  ["tmp"]

/-- `os.path.join(tempfile.gettempdir(), "config.json")` — a fixed path,
independent of the request. -/
def config_path : List String :=
  gettempdir ++ ["config.json"]

/-- `os.path.join(tempfile.gettempdir(), "schema.json")` — a fixed path,
independent of the request. -/
def schema_path : List String :=
  gettempdir ++ ["schema.json"]

/-- The `mkdtemp()` directory of a request, named by the unique directory
name the system generated for it. -/
def staging_dir (name : String) : List String :=
  gettempdir ++ [name]

/-- Python-style path check: absolute iff the string starts with "/". -/
def isAbsolute (s : String) : Bool :=
  match s.data with
  | '/' :: _ => true
  | _ => false

/-- Resolve path components against a base directory the way the
filesystem does when a file is created: ".." pops one component (and is a
no-op at the root), "." and empty components are skipped. Unlike
`resolveComponents` there is no jail — climbing out of the base directory
lands in its parent. -/
def resolveFrom : List String → List String → List String
  | acc, [] => acc
  | acc, c :: cs =>
    if c = ".." then resolveFrom acc.dropLast cs
    else if c = "." ∨ c = "" then resolveFrom acc cs
    else resolveFrom (acc ++ [c]) cs

/-- Filesystem location written by `open(os.path.join(temp_dir,
file.filename), "wb")` for one staged upload: `os.path.join` discards the
directory when the client-supplied filename is absolute, and the OS
resolves "..", "." and empty components against the staging directory —
so a crafted filename can land outside the mkdtemp directory. -/
def staged_file_path (name filename : String) : List String :=
  if isAbsolute filename then resolveFrom [] (splitSlash filename)
  else resolveFrom (staging_dir name) (splitSlash filename)

/-- Paths of the uploaded files staged by a request. -/
def request_staging_paths (name : String) (files : List UploadFile) : List (List String) :=
  List.map (fun f => staged_file_path name f.filename) files

/-- All ephemeral paths a graph-generation request writes: its staged
uploads plus the ephemeral config and schema payload files. -/
def request_ephemeral_paths (name : String) (files : List UploadFile) : List (List String) :=
  request_staging_paths name files ++ [config_path, schema_path]

/-! ## Helper lemmas -/

theorem pyInt_empty : pyInt? "" = none := by decide

/-- If the stripped string parses as an integer, `_parse_int_form` returns
exactly that integer. -/
theorem parse_int_form_of_parses (s : String) (d n : Int)
    (h : pyInt? (pyStrip s) = some n) : parse_int_form (some s) d = n := by
  by_cases hs : pyStrip s = ""
  · exfalso
    rw [hs, pyInt_empty] at h
    exact Option.noConfusion h
  · simp [parse_int_form, hs, h]

/-- If the stripped string is nonempty but fails to parse, `_parse_int_form`
returns the default. -/
theorem parse_int_form_of_fails (s : String) (d : Int)
    (hs : pyStrip s ≠ "") (h : pyInt? (pyStrip s) = none) :
    parse_int_form (some s) d = d := by
  simp [parse_int_form, hs, h]

/-- If the stripped string is empty, `_parse_int_form` returns the default. -/
theorem parse_int_form_of_empty (s : String) (d : Int)
    (hs : pyStrip s = "") : parse_int_form (some s) d = d := by
  simp [parse_int_form, hs]

/-- When the jailed resolution of components succeeds (no escape), the
free filesystem resolution from a base directory lands inside the base
directory, on the jailed result. -/
theorem resolveFrom_of_no_escape (cs : List String) :
    ∀ (acc dir rel : List String), resolveComponents acc cs = some rel →
      resolveFrom (dir ++ acc) cs = dir ++ rel := by
  induction cs with
  | nil =>
    intro acc dir rel h
    simp only [resolveComponents, Option.some.injEq] at h
    subst h
    rfl
  | cons c cs ih =>
    intro acc dir rel h
    by_cases hup : c = ".."
    · match acc with
      | [] =>
        rw [hup] at h
        simp [resolveComponents] at h
      | a :: as =>
        rw [hup] at h ⊢
        simp only [resolveComponents, if_pos rfl] at h
        simp only [resolveFrom, if_pos rfl]
        rw [List.dropLast_append_cons]
        exact ih (a :: as).dropLast dir rel h
    · by_cases hskip : c = "." ∨ c = ""
      · simp only [resolveComponents, if_neg hup, if_pos hskip] at h
        simp only [resolveFrom, if_neg hup, if_pos hskip]
        exact ih acc dir rel h
      · simp only [resolveComponents, if_neg hup, if_neg hskip] at h
        simp only [resolveFrom, if_neg hup, if_neg hskip]
        rw [List.append_assoc] at *
        exact ih (acc ++ [c]) dir rel h

/-- A relative filename whose jailed resolution succeeds is staged inside
the request's own mkdtemp directory, at the resolved relative path. -/
theorem staged_file_path_of_safe (name filename : String) (rel : List String)
    (habs : isAbsolute filename = false)
    (hres : resolveComponents [] (splitSlash filename) = some rel) :
    staged_file_path name filename = staging_dir name ++ rel := by
  have h := resolveFrom_of_no_escape (splitSlash filename) [] (staging_dir name) rel hres
  rw [List.append_nil] at h
  simp [staged_file_path, habs, h]

/-! ## Claims -/

/-- Claim C1: every numeric mining parameter of /mine-patterns
(min_pattern_size, max_pattern_size, min_neighborhood_size,
max_neighborhood_size, n_neighborhoods, n_trials, out_batch_size) is
resolved by the single coercion rule of `_parse_int_form`: an absent
parameter resolves to the field's documented default; a supplied string
that strips to empty resolves to the default; a string whose stripped form
parses as an integer resolves to exactly that integer; a string that fails
to parse resolves to the same default. The resolution is a total function,
so no parse error is ever reported to the caller. -/
theorem c1_numeric_param_resolution (r : MineRequest) (meta : String) (s : String) (n : Int) :
    ((mine_patterns_config r meta).min_pattern_size = resolve_numeric r.min_pattern_size "3" 3
      ∧ (mine_patterns_config r meta).max_pattern_size = resolve_numeric r.max_pattern_size "5" 5
      ∧ (mine_patterns_config r meta).min_neighborhood_size
          = resolve_numeric r.min_neighborhood_size "3" 3
      ∧ (mine_patterns_config r meta).max_neighborhood_size
          = resolve_numeric r.max_neighborhood_size "5" 5
      ∧ (mine_patterns_config r meta).n_neighborhoods = resolve_numeric r.n_neighborhoods "500" 500
      ∧ (mine_patterns_config r meta).n_trials = resolve_numeric r.n_trials "100" 100
      ∧ (mine_patterns_config r meta).out_batch_size = resolve_numeric r.out_batch_size "3" 3)
    ∧ (resolve_numeric none "3" 3 = 3 ∧ resolve_numeric none "5" 5 = 5
        ∧ resolve_numeric none "500" 500 = 500 ∧ resolve_numeric none "100" 100 = 100)
    ∧ (∀ fd d, pyStrip s = "" → resolve_numeric (some s) fd d = d)
    ∧ (∀ fd d, pyInt? (pyStrip s) = some n → resolve_numeric (some s) fd d = n)
    ∧ (∀ fd d, pyStrip s ≠ "" → pyInt? (pyStrip s) = none → resolve_numeric (some s) fd d = d) := by
  refine ⟨⟨rfl, rfl, rfl, rfl, rfl, rfl, rfl⟩, ⟨by decide, by decide, by decide, by decide⟩,
    ?_, ?_, ?_⟩
  · intro fd d hs
    exact parse_int_form_of_empty s d hs
  · intro fd d h
    exact parse_int_form_of_parses s d n h
  · intro fd d hs h
    exact parse_int_form_of_fails s d hs h

/-- Witness for C1 at concrete inputs: a valid integer string resolves to
its value, an empty string and a non-numeric string resolve to the
defaults. -/
theorem c1_numeric_param_resolution_witness :
    resolve_numeric (some " 42 ") "3" 3 = 42
    ∧ resolve_numeric (some "") "5" 5 = 5
    ∧ resolve_numeric (some "abc") "100" 100 = 100 := by
  refine ⟨?_, ?_, ?_⟩
  · exact (c1_numeric_param_resolution {} "directed" " 42 " 42).2.2.2.1 "3" 3 (by decide)
  · exact (c1_numeric_param_resolution {} "directed" "" 0).2.2.1 "5" 5 (by decide)
  · exact (c1_numeric_param_resolution {} "directed" "abc" 0).2.2.2.2 "100" 100
      (by decide) (by decide)

/-- Claim C10: the numeric coercion imposes no range, sign, or cross-field
constraint — any supplied string whose stripped form parses as an integer
(negative values and minimum-exceeds-maximum combinations included) is
placed in the forwarded mining configuration unchanged. -/
theorem c10_no_range_constraint (r : MineRequest) (meta : String) (s : String) (n : Int)
    (hparse : pyInt? (pyStrip s) = some n) :
    (r.min_pattern_size = some s → (mine_patterns_config r meta).min_pattern_size = n)
    ∧ (r.max_pattern_size = some s → (mine_patterns_config r meta).max_pattern_size = n)
    ∧ (r.min_neighborhood_size = some s → (mine_patterns_config r meta).min_neighborhood_size = n)
    ∧ (r.max_neighborhood_size = some s → (mine_patterns_config r meta).max_neighborhood_size = n)
    ∧ (r.n_neighborhoods = some s → (mine_patterns_config r meta).n_neighborhoods = n)
    ∧ (r.n_trials = some s → (mine_patterns_config r meta).n_trials = n)
    ∧ (r.out_batch_size = some s → (mine_patterns_config r meta).out_batch_size = n) := by
  refine ⟨?_, ?_, ?_, ?_, ?_, ?_, ?_⟩ <;>
    · intro h
      simp only [mine_patterns_config, resolve_numeric, h, Option.getD_some]
      exact parse_int_form_of_parses s _ n hparse

/-- Witness for C10: min_pattern_size "10" exceeding max_pattern_size "2"
and a negative n_trials "-5" are all forwarded unchanged. -/
theorem c10_no_range_constraint_witness :
    (mine_patterns_config
        { min_pattern_size := some "10", max_pattern_size := some "2", n_trials := some "-5" }
        "directed").min_pattern_size = 10
    ∧ (mine_patterns_config
        { min_pattern_size := some "10", max_pattern_size := some "2", n_trials := some "-5" }
        "directed").max_pattern_size = 2
    ∧ (mine_patterns_config
        { min_pattern_size := some "10", max_pattern_size := some "2", n_trials := some "-5" }
        "directed").n_trials = -5 := by
  refine ⟨?_, ?_, ?_⟩
  · exact (c10_no_range_constraint
      { min_pattern_size := some "10", max_pattern_size := some "2", n_trials := some "-5" }
      "directed" "10" 10 (by decide)).1 rfl
  · exact (c10_no_range_constraint
      { min_pattern_size := some "10", max_pattern_size := some "2", n_trials := some "-5" }
      "directed" "2" 2 (by decide)).2.1 rfl
  · exact (c10_no_range_constraint
      { min_pattern_size := some "10", max_pattern_size := some "2", n_trials := some "-5" }
      "directed" "-5" (-5) (by decide)).2.2.2.2.2.1 rfl

/-- Counterexample to claim C8 as stated: graph_output_format supplied as
the empty string resolves to the default "representative", not to the
lower-cased trimmed supplied string (which would be the empty string) —
Python's `or` treats a supplied empty string as absent. -/
theorem c8_categorical_counterexample :
    resolve_categorical (some "") "representative" ≠ pyLower (pyStrip "") := by
  decide

/-- Claim C8 (amended): for search_strategy, sample_method and
graph_output_format, a supplied non-empty string resolves to that string
lower-cased and trimmed; an absent parameter — and likewise a supplied
empty string — resolves to the documented default. For graph_type, a
supplied string with non-whitespace content resolves to that string
trimmed and lower-cased; when graph_type is absent, empty, or
whitespace-only, the metadata-resolved value is used instead. -/
theorem c8_categorical_resolution (r : MineRequest) (meta s g : String) :
    ((mine_patterns_config r meta).search_strategy = resolve_categorical r.search_strategy "greedy"
      ∧ (mine_patterns_config r meta).sample_method = resolve_categorical r.sample_method "tree"
      ∧ (mine_patterns_config r meta).graph_output_format
          = resolve_categorical r.graph_output_format "representative"
      ∧ (mine_patterns_config r meta).graph_type = resolve_graph_type r.graph_type meta)
    ∧ (∀ d, s ≠ "" → resolve_categorical (some s) d = pyLower (pyStrip s))
    ∧ (resolve_categorical none "greedy" = "greedy"
        ∧ resolve_categorical none "tree" = "tree"
        ∧ resolve_categorical none "representative" = "representative"
        ∧ ∀ d, resolve_categorical (some "") d = resolve_categorical none d)
    ∧ (pyStrip g ≠ "" → resolve_graph_type (some g) meta = pyLower (pyStrip g))
    ∧ (pyStrip g = "" → resolve_graph_type (some g) meta = meta)
    ∧ resolve_graph_type none meta = meta := by
  refine ⟨⟨rfl, rfl, rfl, rfl⟩, ?_,
    ⟨by decide, by decide, by decide, fun d => by simp [resolve_categorical, pyOrS]⟩, ?_, ?_, rfl⟩
  · intro d hs
    simp [resolve_categorical, pyOrS, hs]
  · intro hg
    simp [resolve_graph_type, hg]
  · intro hg
    simp [resolve_graph_type, hg]

/-- Witness for the amended C8: a padded mixed-case strategy is trimmed and
lower-cased, and a padded mixed-case graph_type likewise. -/
theorem c8_categorical_resolution_witness :
    resolve_categorical (some " BFS ") "greedy" = "bfs"
    ∧ resolve_graph_type (some " DiRected ") "undirected" = "directed" := by
  refine ⟨?_, ?_⟩
  · exact ((c8_categorical_resolution {} "undirected" " BFS " "x").2.1 "greedy"
      (by decide)).trans (by decide)
  · exact ((c8_categorical_resolution {} "undirected" "x" " DiRected ").2.2.2.1
      (by decide)).trans (by decide)

/-- Claim C2: the /mining-status endpoint never propagates a failure — it
is a total function into status payloads. A missing progress record yields
status "pending" with progress 0 and the waiting message, and a read or
parse error on the record yields status "error" with progress 0 and a
message containing the error text, instead of raising. -/
theorem c2_mining_status_never_fails (fs : String → ProgressRead) (job_id : String) :
    (fs (progress_path job_id) = ProgressRead.missing →
      get_mining_status fs job_id = ⟨"pending", 0, "Waiting for miner to start..."⟩)
    ∧ (∀ e, fs (progress_path job_id) = ProgressRead.readError e →
      get_mining_status fs job_id = ⟨"error", 0, "Error checking status: " ++ e⟩
        ∧ ∃ pre, (get_mining_status fs job_id).message = pre ++ e) := by
  constructor
  · intro h
    simp [get_mining_status, get_mining_status_body, h]
  · intro e h
    refine ⟨?_, "Error checking status: ", ?_⟩ <;>
      simp [get_mining_status, get_mining_status_body, h]

/-- Witness for C2: a job with no progress record reports pending, and a
job whose record read raises "disk" reports an error payload quoting it. -/
theorem c2_mining_status_never_fails_witness :
    get_mining_status (fun _ => ProgressRead.missing) "J1"
      = ⟨"pending", 0, "Waiting for miner to start..."⟩
    ∧ get_mining_status (fun _ => ProgressRead.readError "disk") "J1"
      = ⟨"error", 0, "Error checking status: disk"⟩ := by
  refine ⟨?_, ?_⟩
  · exact (c2_mining_status_never_fails (fun _ => ProgressRead.missing) "J1").1 rfl
  · exact ((c2_mining_status_never_fails (fun _ => ProgressRead.readError "disk") "J1").2
      "disk" rfl).1

/-- Claim C3: when the Graph Builder call returns normally but its result
dict reports status "error", /generate-graph raises an HTTPException with
status 502 carrying the builder's error text (with a fixed fallback text
when the dict has no error entry), whereas a transport-level failure
propagates as an uncaught exception (a generic failure), and the two
outcomes are distinct. -/
theorem c3_logical_error_is_502 (files : List UploadFile) (r : BuilderResult) (e : String)
    (hcsv : files.all (fun f => pyEndsWith f.filename ".csv") = true)
    (herr : r.status = some "error") :
    (generate_graph files (Except.ok ()) (Except.ok r)).fst
      = HttpOutcome.httpError 502 (r.error.getD "Graph generation failed (AtomSpace error)")
    ∧ (∀ m, r.error = some m →
      (generate_graph files (Except.ok ()) (Except.ok r)).fst = HttpOutcome.httpError 502 m)
    ∧ (generate_graph files (Except.ok ()) (Except.error e)).fst = HttpOutcome.raised e
    ∧ (∀ c d m, HttpOutcome.httpError c d ≠ HttpOutcome.raised m) := by
  have hany : files.any (fun f => !(pyEndsWith f.filename ".csv")) = false := by
    rw [List.any_eq_false]
    intro f hf
    simp [List.all_eq_true.mp hcsv f hf]
  refine ⟨?_, ?_, ?_, ?_⟩
  · simp [generate_graph, hany, herr]
  · intro m hm
    simp [generate_graph, hany, herr, hm]
  · simp [generate_graph, hany]
  · intro c d m h
    exact HttpOutcome.noConfusion h

/-- Witness for C3: a builder result with status "error" and error text
"boom" yields a 502 with detail "boom", while a raised transport error
"net down" propagates as an uncaught exception. -/
theorem c3_logical_error_is_502_witness :
    (generate_graph [⟨"a.csv"⟩] (Except.ok ())
        (Except.ok { status := some "error", error := some "boom" })).fst
      = HttpOutcome.httpError 502 "boom"
    ∧ (generate_graph [⟨"a.csv"⟩] (Except.ok ()) (Except.error "net down")).fst
      = HttpOutcome.raised "net down" := by
  have h := c3_logical_error_is_502 [⟨"a.csv"⟩]
    { status := some "error", error := some "boom" } "net down" (by decide) rfl
  exact ⟨h.2.1 "boom" rfl, h.2.2.1⟩

/-- Claim C5: if any uploaded file's name does not end in ".csv", the whole
/generate-graph request is rejected with a 400 bad-extension failure and
the staging directory is never created. -/
theorem c5_bad_extension_rejected_before_staging (files : List UploadFile)
    (stage : Except String Unit) (backend : Except String BuilderResult) (f : UploadFile)
    (hf : f ∈ files) (hbad : pyEndsWith f.filename ".csv" = false) :
    generate_graph files stage backend
      = (HttpOutcome.httpError 400 "Only CSV files are allowed", ⟨false, false⟩) := by
  have hany : files.any (fun f => !(pyEndsWith f.filename ".csv")) = true := by
    rw [List.any_eq_true]
    exact ⟨f, hf, by simp [hbad]⟩
  simp [generate_graph, hany]

/-- Witness for C5 at the spec's scenario: a request carrying "data.txt"
is rejected with 400 and no temporary storage is created. -/
theorem c5_bad_extension_rejected_before_staging_witness :
    generate_graph [⟨"data.txt"⟩] (Except.ok ()) (Except.error "unused")
      = (HttpOutcome.httpError 400 "Only CSV files are allowed", ⟨false, false⟩) :=
  c5_bad_extension_rejected_before_staging [⟨"data.txt"⟩] (Except.ok ()) (Except.error "unused")
    ⟨"data.txt"⟩ (by decide) (by decide)

/-- Claim C6: whenever /generate-graph ends in an exception (a raised
error or an HTTPException, including the 502 translation of a logical
builder error) after the staging directory was created, the directory has
been removed by the time the error propagates. -/
theorem c6_staging_dir_cleaned_on_error (files : List UploadFile)
    (stage : Except String Unit) (backend : Except String BuilderResult)
    (out : HttpOutcome) (eff : GenEffects)
    (h : generate_graph files stage backend = (out, eff))
    (hc : eff.tempDirCreated = true)
    (hns : ∀ r, out ≠ HttpOutcome.success r) :
    eff.tempDirRemoved = true := by
  unfold generate_graph at h
  split at h
  · injection h with h1 h2
    subst h2
    exact absurd hc (by decide)
  · split at h
    · injection h with h1 h2
      subst h2
      rfl
    · split at h
      · injection h with h1 h2
        subst h2
        rfl
      · split at h
        · injection h with h1 h2
          subst h2
          rfl
        · injection h with h1 h2
          subst h1
          subst h2
          exact absurd rfl (hns _)

/-- Witness for C6: a backend exception after staging leaves the directory
created and then removed. -/
theorem c6_staging_dir_cleaned_on_error_witness :
    (generate_graph [⟨"a.csv"⟩] (Except.ok ()) (Except.error "boom")).snd.tempDirRemoved = true :=
  c6_staging_dir_cleaned_on_error [⟨"a.csv"⟩] (Except.ok ()) (Except.error "boom")
    (HttpOutcome.raised "boom") ⟨true, true⟩ (by decide) rfl (fun r h => HttpOutcome.noConfusion h)

/-- Claim C7: on every exit path of `_generate_networkx` — success,
non-success transport response, or any raised exception — the ephemeral
config and schema files are removed before control returns. -/
theorem c7_ephemeral_files_always_removed (post : PostOutcome) :
    (generate_networkx post).snd.configExists = false
    ∧ (generate_networkx post).snd.schemaExists = false :=
  ⟨rfl, rfl⟩

/-- Claim C4: a /download-result call whose filename resolution escapes
the job's own directory reports a 403 permission failure (neither 404 nor
500), and every failing call reports exactly one of 403, 404, or 500. -/
theorem c4_download_escape_is_403 (fs : List String → Bool) (jobDirExists archiveOk : Bool)
    (job_id f : String) (hesc : resolveComponents [] (splitSlash f) = none) :
    download_result fs jobDirExists archiveOk job_id (some f)
      = DownloadOutcome.httpError 403 ("Access to " ++ f ++ " is not permitted")
    ∧ (∀ fn c d, download_result fs jobDirExists archiveOk job_id fn
        = DownloadOutcome.httpError c d → c = 403 ∨ c = 404 ∨ c = 500) := by
  constructor
  · simp [download_result, get_result_file_path, hesc, storeOutcomeToHttp]
  · intro fn c d h
    unfold download_result at h
    generalize hx : (match fn with
      | some f => get_result_file_path fs job_id f
      | none => create_job_archive jobDirExists archiveOk job_id) = x at h
    match x with
    | Except.ok p => exact absurd h (by simp [storeOutcomeToHttp])
    | Except.error (StoreError.permission m) =>
      injection h with h1 h2
      exact Or.inl h1.symm
    | Except.error (StoreError.notFound m) =>
      injection h with h1 h2
      exact Or.inr (Or.inl h1.symm)
    | Except.error (StoreError.other m) =>
      injection h with h1 h2
      exact Or.inr (Or.inr h1.symm)

/-- Witness for C4 at the spec's scenario: filename "../../etc/passwd"
escapes the job directory and yields a 403. -/
theorem c4_download_escape_is_403_witness :
    download_result (fun _ => false) false false "J1" (some "../../etc/passwd")
      = DownloadOutcome.httpError 403 "Access to ../../etc/passwd is not permitted" :=
  (c4_download_escape_is_403 (fun _ => false) false false "J1" "../../etc/passwd" (by decide)).1

/-- Counterexample to claim C9 as stated: the ephemeral config and schema
payload files are written to fixed paths under the global temp directory,
so two distinct graph-generation requests (here with distinct mkdtemp
directories "tmpA" and "tmpB") share those paths — their ephemeral storage
locations are not disjoint. -/
theorem c9_shared_config_path_counterexample :
    ("tmpA" : String) ≠ "tmpB"
    ∧ config_path ∈ request_ephemeral_paths "tmpA" [⟨"a.csv"⟩]
    ∧ config_path ∈ request_ephemeral_paths "tmpB" [⟨"b.csv"⟩]
    ∧ schema_path ∈ request_ephemeral_paths "tmpA" [⟨"a.csv"⟩]
    ∧ schema_path ∈ request_ephemeral_paths "tmpB" [⟨"b.csv"⟩] := by
  decide

/-- Claim C9 (amended): the per-request mkdtemp staging directories are
distinct, and the staged uploaded-file paths of two distinct requests are
disjoint provided every uploaded filename is relative and resolves inside
its own staging directory; that proviso is necessary, because
`os.path.join` lets a filename that is absolute or climbs out with ".."
escape the staging directory and collide across requests (for example
"../escape.csv" staged by the two distinct requests "tmpA" and "tmpB"
lands at the same path); and the ephemeral config and schema payload files
are written to fixed shared paths common to all requests. -/
theorem c9_staged_uploads_disjoint (d1 d2 : String) (files1 files2 : List UploadFile)
    (p : List String) (hd : d1 ≠ d2)
    (hsafe1 : ∀ f ∈ files1, isAbsolute f.filename = false
        ∧ resolveComponents [] (splitSlash f.filename) ≠ none)
    (hsafe2 : ∀ f ∈ files2, isAbsolute f.filename = false
        ∧ resolveComponents [] (splitSlash f.filename) ≠ none)
    (h1 : p ∈ request_staging_paths d1 files1) :
    p ∉ request_staging_paths d2 files2
      ∧ ("tmpA" : String) ≠ "tmpB"
      ∧ staged_file_path "tmpA" "../escape.csv" = staged_file_path "tmpB" "../escape.csv" := by
  refine ⟨?_, by decide, by decide⟩
  intro h2
  rcases List.mem_map.mp h1 with ⟨f1, hf1, e1⟩
  rcases List.mem_map.mp h2 with ⟨f2, hf2, e2⟩
  obtain ⟨habs1, hres1⟩ := hsafe1 f1 hf1
  obtain ⟨habs2, hres2⟩ := hsafe2 f2 hf2
  cases hr1 : resolveComponents [] (splitSlash f1.filename) with
  | none => exact hres1 hr1
  | some rel1 =>
    cases hr2 : resolveComponents [] (splitSlash f2.filename) with
    | none => exact hres2 hr2
    | some rel2 =>
      apply hd
      have p1 : staging_dir d1 ++ rel1 = p :=
        (staged_file_path_of_safe d1 f1.filename rel1 habs1 hr1).symm.trans e1
      have p2 : staging_dir d2 ++ rel2 = p :=
        (staged_file_path_of_safe d2 f2.filename rel2 habs2 hr2).symm.trans e2
      have e : staging_dir d1 ++ rel1 = staging_dir d2 ++ rel2 := p1.trans p2.symm
      simp [staging_dir, gettempdir] at e
      exact e.1

/-- Witness for the amended C9: with plain relative filenames, a file
staged by the request owning directory "tmpA" is not among the staged
paths of the request owning "tmpB". -/
theorem c9_staged_uploads_disjoint_witness :
    ["tmp", "tmpA", "a.csv"] ∉ request_staging_paths "tmpB" [⟨"b.csv"⟩] :=
  (c9_staged_uploads_disjoint "tmpA" "tmpB" [⟨"a.csv"⟩] [⟨"b.csv"⟩] ["tmp", "tmpA", "a.csv"]
    (by decide) (by decide) (by decide) (by decide)).1

end NeuroGraph
